import Mathlib

/-!
Verification of the glob-to-event correlation engine of gulp-watch
(src/index.js) against its natural-language specification.

The embedding models the engine shallowly:
* a POSIX path layer standing for the node `path` module (an external
  collaborator of the core), implemented on character lists so that all
  definitions reduce in the kernel;
* the pattern resolver (`normalizeGlobs`, `resolveGlob`, lines 16-30 and
  51-61 of src/index.js);
* the event correlator (`processEvent`, lines 97-134) and the output
  writer (`write`, lines 136-149), with glob matching (`anymatch`) and
  `glob-parent` abstracted as function parameters, exactly as the spec
  treats them (external collaborators known only by their interface);
* a small trace machine (`step`, `run`) for the output stream surface
  (`add`, `close`, inbound writes, read completions).
-/

namespace GulpWatch

/-! ## POSIX path layer (models the node `path` module) -/

/-- Splits a character list at '/' separators. -/
def splitCharsAux : List Char → List Char → List (List Char)
  | acc, [] => [acc.reverse]
  | acc, c :: cs =>
    if c = '/' then acc.reverse :: splitCharsAux [] cs
    else splitCharsAux (c :: acc) cs

/-- The raw '/'-separated segments of a path string (empty segments kept). -/
def rawSegs (s : String) : List String :=
  (splitCharsAux [] s.data).map String.mk

/-- The nonempty segments of a path string. -/
def splitPath (s : String) : List String :=
  (rawSegs s).filter (fun seg => !(seg == ""))

/-- True when the string begins with the given character. -/
def headIs (c : Char) (s : String) : Bool :=
  match s.data with
  | [] => false
  | d :: _ => d == c

/-- Models `path-is-absolute` for POSIX paths: a leading slash. -/
def startsSlash (s : String) : Bool := headIs '/' s

/-- Joins segments with '/' separators. -/
def joinSegs : List String → String
  | [] => ""
  | [s] => s
  | s :: rest => s ++ "/" ++ joinSegs rest

/-- Resolution of "." and ".." segments, as node `path.normalize` does:
".." above the root of an absolute path is dropped, while a relative
path keeps leading ".." segments. -/
def normSegsAux (abs : Bool) : List String → List String → List String
  | acc, [] => acc.reverse
  | acc, seg :: rest =>
    if seg == "" || seg == "." then normSegsAux abs acc rest
    else if seg == ".." then
      match acc with
      | [] => if abs then normSegsAux abs [] rest else normSegsAux abs [".."] rest
      | top :: tl =>
        if top == ".." then normSegsAux abs (".." :: top :: tl) rest
        else normSegsAux abs tl rest
    else normSegsAux abs (seg :: acc) rest

/-- Models node `path.normalize` on POSIX paths. -/
def pathNormalize (s : String) : String :=
  let abs := startsSlash s
  let segs := normSegsAux abs [] (rawSegs s)
  if abs then "/" ++ joinSegs segs
  else if segs.isEmpty then "." else joinSegs segs

/-- Models node `path.resolve cwd p` (two-argument form, cwd absolute). -/
def pathResolve (cwd p : String) : String :=
  if startsSlash p then pathNormalize p else pathNormalize (cwd ++ "/" ++ p)

/-- Models node `path.dirname` on POSIX paths. -/
def dirname (s : String) : String :=
  if startsSlash s then
    match (splitPath s).dropLast with
    | [] => "/"
    | ds => "/" ++ joinSegs ds
  else
    match (splitPath s).dropLast with
    | [] => "."
    | ds => joinSegs ds

/-- Drops the longest common leading run of two segment lists
(the core of node `path.relative`). -/
def dropCommon : List String → List String → List String × List String
  | a :: as, b :: bs => if a = b then dropCommon as bs else (a :: as, b :: bs)
  | as, bs => (as, bs)

/-- Models node `path.relative b p` for two absolute POSIX paths; vinyl
computes a file object's relative path as `path.relative base path`. -/
def pathRelative (b p : String) : String :=
  joinSegs
    (((dropCommon (splitPath b) (splitPath p)).1.map (fun _ => "..")) ++
      (dropCommon (splitPath b) (splitPath p)).2)

/-- Models the `normalize-path` module used on resolved globs
(src/index.js line 59): backslashes become forward slashes. -/
def normalizePathMod (s : String) : String :=
  String.mk (s.data.map (fun c => if c == '\\' then '/' else c))

/-- The tail of a string, for `glob.slice(1)`. -/
def strTail (s : String) : String := String.mk (s.data.drop 1)

/-- Boolean test that `pre` is a leading run of `s` (used only to build
concrete example matchers). -/
def strStarts (pre s : String) : Bool := List.isPrefixOf pre.data s.data

/-! ## Data model -/

/-- The raw event kinds of the underlying watcher (src/index.js line 80). -/
inductive RawKind where
  | add
  | change
  | unlink
  | addDir
  | unlinkDir
  | error
  | ready
  | raw
  deriving DecidableEq, Repr

/-- The JavaScript value supplied as the `globs` argument.  Array entries
are kept as strings, the only case the engine processes further. -/
inductive GlobsArg where
  | undef
  | null
  | str (s : String)
  | num (n : Int)
  | bool (b : Bool)
  | arr (xs : List String)
  deriving DecidableEq, Repr

/-- JavaScript truthiness of a `GlobsArg` value, for the `if (!globs)`
test on src/index.js line 17. -/
def falsy : GlobsArg → Bool
  | GlobsArg.undef => true
  | GlobsArg.null => true
  | GlobsArg.str s => s == ""
  | GlobsArg.num n => n == 0
  | GlobsArg.bool b => !b
  | GlobsArg.arr _ => false

/-- JavaScript `typeof`, used in the error message on src/index.js line 26. -/
def jsTypeName : GlobsArg → String
  | GlobsArg.undef => "undefined"
  | GlobsArg.null => "object"
  | GlobsArg.str _ => "string"
  | GlobsArg.num _ => "number"
  | GlobsArg.bool _ => "boolean"
  | GlobsArg.arr _ => "object"

/-- The two construction-time `PluginError` shapes thrown by
`normalizeGlobs` (src/index.js lines 18 and 26). -/
inductive PluginErr where
  | missingArgument
  | invalidArgument (typeName : String)
  deriving DecidableEq, Repr

/-- Runtime JavaScript errors of the embedded code.  `constAssignment`
is the TypeError raised by assigning to a `const` binding. -/
inductive JsError where
  | constAssignment
  deriving DecidableEq, Repr

/-- `normalizeGlobs` (src/index.js lines 16-30): a falsy argument throws
the missing-argument error; a string is wrapped in a singleton list; a
non-array then throws the invalid-argument error naming its type; an
array (empty included) is returned unchanged. -/
def normalizeGlobs (g : GlobsArg) : Except PluginErr (List String) :=
  if falsy g then Except.error PluginErr.missingArgument
  else
    match g with
    | GlobsArg.str s => Except.ok [s]
    | GlobsArg.arr xs => Except.ok xs
    | other => Except.error (PluginErr.invalidArgument (jsTypeName other))

/-- `resolveFilepath` (src/index.js lines 44-49) with the effective
working directory (`opts.cwd || process.cwd()`) passed explicitly. -/
def resolveFilepath (cwd fp : String) : String :=
  if startsSlash fp then pathNormalize fp else pathResolve cwd fp

/-- `resolveGlob` (src/index.js lines 51-60) as written: line 52 declares
`const mod = ''` and line 55 assigns `mod = glob[0]` when the glob starts
with '!', which raises TypeError (assignment to constant variable) at
runtime.  A negated glob therefore throws instead of being resolved. -/
def resolveGlob (cwd glob : String) : Except JsError String :=
  if headIs '!' glob then Except.error JsError.constAssignment
  else Except.ok (normalizePathMod (resolveFilepath cwd glob))

/-- `resolveGlob` with the mutable binding (`let mod`) used by upstream
gulp-watch, the behaviour the spec describes: the leading '!' is kept
and the remainder is resolved and slash-normalized. -/
def resolveGlobLet (cwd glob : String) : String :=
  if headIs '!' glob then "!" ++ normalizePathMod (resolveFilepath cwd (strTail glob))
  else normalizePathMod (resolveFilepath cwd glob)

/-- `globs.map(resolveGlob)` with JavaScript throw propagation: the first
TypeError aborts the whole map. -/
def resolveGlobList (cwd : String) : List String → Except JsError (List String)
  | [] => Except.ok []
  | g :: rest =>
    match resolveGlob cwd g with
    | Except.error e => Except.error e
    | Except.ok r =>
      match resolveGlobList cwd rest with
      | Except.error e => Except.error e
      | Except.ok rs => Except.ok (r :: rs)

/-- Either construction-time failure of the pattern pipeline. -/
inductive BuildErr where
  | plugin (e : PluginErr)
  | js (e : JsError)
  deriving DecidableEq, Repr

/-- `normalizeGlobs(x).map(resolveGlob)` — the pipeline used both at
construction (lines 34, 61) and in `outputStream.add` (lines 86-87). -/
def resolveAll (cwd : String) (g : GlobsArg) : Except BuildErr (List String) :=
  match normalizeGlobs g with
  | Except.error e => Except.error (BuildErr.plugin e)
  | Except.ok gs =>
    match resolveGlobList cwd gs with
    | Except.error e => Except.error (BuildErr.js e)
    | Except.ok rs => Except.ok rs

/-- Configuration after the defaults merge (src/index.js line 41).  The
default-options object carries only `events`, `ignoreInitial` and
`readDelay`; the other recognized options are absent unless supplied, so
they are optional here (`verbose` is kept as Bool since the code only
ever tests its truthiness). -/
structure Config where
  events : List RawKind
  ignoreInitial : Bool
  readDelay : Nat
  cwd : Option String
  base : Option String
  verbose : Bool
  name : Option String
  deriving DecidableEq, Repr

/-- The user-supplied options object before the defaults merge. -/
structure ConfigInput where
  events : Option (List RawKind) := none
  ignoreInitial : Option Bool := none
  readDelay : Option Nat := none
  cwd : Option String := none
  base : Option String := none
  verbose : Option Bool := none
  name : Option String := none
  deriving DecidableEq, Repr

/-- `watch._defaultOptions` (src/index.js lines 170-174). -/
structure DefaultOpts where
  events : List RawKind
  ignoreInitial : Bool
  readDelay : Nat
  deriving DecidableEq, Repr

def defaultOptions : DefaultOpts :=
  { events := [RawKind.add, RawKind.change, RawKind.unlink],
    ignoreInitial := true,
    readDelay := 10 }

/-- `assign({}, watch._defaultOptions, opts)` (src/index.js line 41). -/
def mergeOptions (p : ConfigInput) : Config :=
  { events := p.events.getD defaultOptions.events,
    ignoreInitial := p.ignoreInitial.getD defaultOptions.ignoreInitial,
    readDelay := p.readDelay.getD defaultOptions.readDelay,
    cwd := p.cwd,
    base := p.base,
    verbose := p.verbose.getD false,
    name := p.name }

/-- The `opts` argument of `watch`: an options object, a function (the
per-file callback in the options position), or absent. -/
inductive OptsArg (κ : Type) where
  | obj (o : ConfigInput)
  | fn (f : κ)
  | undef

/-- The resolved per-file callback: the user-supplied one or the no-op
fallback `function () {}` (src/index.js line 42). -/
inductive Callback (κ : Type) where
  | user (f : κ)
  | noop
  deriving DecidableEq, Repr

/-- Argument juggling of `watch` (src/index.js lines 36-42): a function
in the options position becomes the callback (discarding any third
argument) and the options fall back to `{}`; missing options merge to
the factory defaults; a missing callback becomes the no-op. -/
def resolveWatchArgs {κ : Type} (optsArg : OptsArg κ) (cbArg : Option κ) :
    Config × Callback κ :=
  match optsArg with
  | OptsArg.fn f => (mergeOptions {}, Callback.user f)
  | OptsArg.obj o =>
    (mergeOptions o,
      match cbArg with
      | some f => Callback.user f
      | none => Callback.noop)
  | OptsArg.undef =>
    (mergeOptions {},
      match cbArg with
      | some f => Callback.user f
      | none => Callback.noop)

/-! ## Owner lookup (src/index.js lines 101-103)

The loop

  while (!(glob = globs[anymatch(globs, currentFilepath, true)]) &&
         currentFilepath !== (currentFilepath = path.dirname(currentFilepath))) {}

is embedded with its `const glob;` declaration (a missing-initializer
SyntaxError as written) read as the mutable binding (`let glob;`) of
upstream gulp-watch, the only reading under which the loop has any
semantics.  Glob matching itself is the external `anymatch` collaborator
and is a function parameter: `none` stands for the -1 that
`anymatch(globs, path, true)` returns when nothing matches. -/

/-- `globs[i]` for a JavaScript index lookup, folded with the loop's
truthiness test: an out-of-range index yields `undefined` and an empty
string is falsy, so both keep the loop walking. -/
def jsIndex (globs : List String) : Option Nat → Option String
  | none => none
  | some i =>
    match globs[i]? with
    | none => none
    | some g => if g = "" then none else some g

/-- The upward walk: try the matcher at the path, then at each ancestor
directory, stopping when `dirname` no longer changes the path.  The fuel
bounds the number of iterations; `lookupOwner` supplies enough. -/
def findOwner (am : List String → String → Option Nat) (globs : List String) :
    Nat → String → Option String
  | 0, _ => none
  | fuel + 1, p =>
    match jsIndex globs (am globs p) with
    | some g => some g
    | none => if dirname p = p then none else findOwner am globs fuel (dirname p)

/-- Owner lookup for a path: the walk with sufficient fuel (each step
strips a path segment, so segment count plus two iterations always
reach the `dirname` fixed point). -/
def lookupOwner (am : List String → String → Option Nat) (globs : List String)
    (p : String) : Option String :=
  findOwner am globs ((splitPath p).length + 2) p

/-- The chain of paths the loop visits: the path and its ancestors up to
and including the `dirname` fixed point. -/
def dirChain : Nat → String → List String
  | 0, _ => []
  | fuel + 1, p => p :: (if dirname p = p then [] else dirChain fuel (dirname p))

/-- First hit of `f` along a list of candidate paths. -/
def firstMatch (f : String → Option String) : List String → Option String
  | [] => none
  | q :: rest =>
    match f q with
    | some g => some g
    | none => firstMatch f rest

/-! ## Event correlator and output stream -/

/-- The vinyl file object as the engine sees it: path, base, optional
content payload, whether stats were populated, and the event tag that
`write` attaches (src/index.js line 146). -/
structure VFile where
  path : String
  base : String
  contents : Option String := none
  statPresent : Bool := false
  event : Option RawKind := none
  deriving DecidableEq, Repr

/-- The session state of one `watch` call: the original constructor
argument (kept for the unowned-path diagnostic, line 33 and 111), the
merged options, the process working directory, and the live resolved
pattern list (mutable via `outputStream.add`).  `closed` records that
`close()` has run; the source consults it nowhere, which the analysis
of late pushes makes visible. -/
structure Session where
  originalGlobs : GlobsArg
  opts : Config
  procCwd : String
  globs : List String
  closed : Bool := false
  deriving DecidableEq, Repr

/-- `opts.cwd || process.cwd()` (src/index.js line 48). -/
def effCwd (s : Session) : String :=
  match s.opts.cwd with
  | some c => if c == "" then s.procCwd else c
  | none => s.procCwd

/-- `const baseForced = Boolean(opts.base)` (src/index.js line 63):
truthy only for a present, nonempty base option. -/
def baseForced (s : Session) : Bool :=
  match s.opts.base with
  | some b => !(b == "")
  | none => false

/-- The external collaborators the correlator calls: `anymatch` with
returnIndex (`none` for -1) and `glob-parent`. -/
structure Ext where
  am : List String → String → Option Nat
  gp : String → String

/-- The base directory attached to an owned event (src/index.js lines
116-118): the caller-forced `opts.base` when it is truthy, otherwise
`path.normalize(globParent(glob))` of the owning pattern. -/
def ownedBase (ext : Ext) (s : Session) (glob : String) : String :=
  if baseForced s then (s.opts.base).getD "" else pathNormalize (ext.gp glob)

/-- Whether the raw kind is a deletion (src/index.js line 121). -/
def isDeleteEvent : RawKind → Bool
  | RawKind.unlink => true
  | RawKind.unlinkDir => true
  | _ => false

/-- The unowned-path diagnostic (src/index.js lines 106-112): the log
message interpolates the original constructor globs argument
(`JSON.stringify(originalGlobs)`), the resolved filepath and the event
kind (plus versions, cwd and options, irrelevant here). -/
structure Diag where
  originalGlobs : GlobsArg
  filepath : String
  event : RawKind
  deriving DecidableEq, Repr

/-- The pattern list the diagnostic displays. -/
def diagShownGlobs (d : Diag) : List String :=
  match d.originalGlobs with
  | GlobsArg.str s => [s]
  | GlobsArg.arr l => l
  | _ => []

/-- A content read scheduled by `setTimeout(... vinyl.read ..., readDelay)`
(src/index.js lines 129-133). -/
structure Pending where
  event : RawKind
  filepath : String
  base : String
  delay : Nat
  deriving DecidableEq, Repr

/-- Observable outputs of the engine: pushes and callback invocations of
file objects, the stream error channel, the verbose log, the unowned
diagnostic, the end signal, the mirrored raw events (src/index.js lines
80-83) and the instructions sent to the underlying watcher. -/
inductive Out where
  | push (f : VFile)
  | cbCall (f : VFile)
  | errorEvent
  | logNote (event : RawKind) (f : VFile)
  | diagnostic (d : Diag)
  | endEvent
  | mirror (ev : RawKind)
  | watcherAdd (globs : List String)
  | watcherClose
  | addThrew
  deriving DecidableEq, Repr

/-- `write` (src/index.js lines 136-149): a non-null error is emitted on
the stream's error channel and nothing else happens; otherwise the
verbose log fires (on the untagged file), the file is tagged with its
event kind, pushed downstream and handed to the per-file callback. -/
def write (s : Session) (event : RawKind) (err : Option Unit) (file : VFile) :
    List Out :=
  match err with
  | some _ => [Out.errorEvent]
  | none =>
    (if s.opts.verbose then [Out.logNote event file] else []) ++
      [Out.push { file with event := some event },
       Out.cbCall { file with event := some event }]

/-- `processEvent` (src/index.js lines 97-134): resolve the path, walk
for an owner; unowned paths produce the diagnostic and are dropped;
owned deletions are written immediately with only path metadata; every
other owned kind schedules a content read after `readDelay`. -/
def processEvent (ext : Ext) (s : Session) (event : RawKind) (rawPath : String) :
    List Out × List Pending :=
  match lookupOwner ext.am s.globs (resolveFilepath (effCwd s) rawPath) with
  | none =>
    ([Out.diagnostic
        { originalGlobs := s.originalGlobs,
          filepath := resolveFilepath (effCwd s) rawPath,
          event := event }], [])
  | some glob =>
    if isDeleteEvent event then
      (write s event none
        { path := resolveFilepath (effCwd s) rawPath,
          base := ownedBase ext s glob }, [])
    else
      ([], [{ event := event,
              filepath := resolveFilepath (effCwd s) rawPath,
              base := ownedBase ext s glob,
              delay := s.opts.readDelay }])

/-- Settlement of a scheduled read (src/index.js lines 129-133).  The
promise chain `vinyl.read(...).then(file => write(event, null, file))`
has no rejection handler, so a failed read is an unhandled promise
rejection: `write` is never reached and nothing is emitted. -/
def completeRead (s : Session) (pr : Pending) (res : Except Unit String) :
    List Out :=
  match res with
  | Except.ok contents =>
    write s pr.event none
      { path := pr.filepath, base := pr.base,
        contents := some contents, statPresent := true }
  | Except.error _ => []

/-- The machine state: the session plus the reads currently scheduled. -/
structure MState where
  sess : Session
  pending : List Pending
  deriving DecidableEq, Repr

/-- External stimuli of one watch session: a raw watcher event, a call to
`outputStream.add`, `close()`, the settlement of the i-th pending read,
and an inbound write into the duplex stream. -/
inductive Act where
  | raw (ev : RawKind) (p : String)
  | addGlobs (g : GlobsArg)
  | close
  | settle (i : Nat) (res : Except Unit String)
  | writeIn (f : VFile)

/-- One step of the session.  Raw events are mirrored 1:1 onto the stream
(src/index.js lines 80-83) and, for the kinds listed in `opts.events`
(lines 76-78), run `processEvent` first.  `add` (lines 85-90) resolves
the new globs, instructs the watcher and appends to the live list — or
throws, leaving the state untouched.  `close` (lines 92-95) stops the
watcher and emits end; no field of the session guards later pushes.
Settling a pending read removes it and emits what `completeRead` says.
An inbound write (lines 66-70) invokes the callback then pushes. -/
def step (ext : Ext) (st : MState) : Act → MState × List Out
  | Act.raw ev p =>
    if ev ∈ st.sess.opts.events then
      let pe := processEvent ext st.sess ev p
      ({ st with pending := st.pending ++ pe.2 }, pe.1 ++ [Out.mirror ev])
    else (st, [Out.mirror ev])
  | Act.addGlobs g =>
    match resolveAll (effCwd st.sess) g with
    | Except.error _ => (st, [Out.addThrew])
    | Except.ok rs =>
      ({ st with sess := { st.sess with globs := st.sess.globs ++ rs } },
        [Out.watcherAdd rs])
  | Act.close =>
    ({ st with sess := { st.sess with closed := true } },
      [Out.watcherClose, Out.endEvent])
  | Act.settle i res =>
    match st.pending[i]? with
    | none => (st, [])
    | some pr => ({ st with pending := st.pending.eraseIdx i },
        completeRead st.sess pr res)
  | Act.writeIn f => (st, [Out.cbCall f, Out.push f])

/-- Runs a list of stimuli, collecting all outputs in order. -/
def run (ext : Ext) : MState → List Act → MState × List Out
  | st, [] => (st, [])
  | st, a :: rest =>
    let r := step ext st a
    let r2 := run ext r.1 rest
    (r2.1, r.2 ++ r2.2)

/-- The outputs that occur strictly after the stream signalled end. -/
def afterEnd : List Out → List Out
  | [] => []
  | Out.endEvent :: rest => rest
  | _ :: rest => afterEnd rest

/-- Recognizes a downstream push. -/
def isPushOut : Out → Bool
  | Out.push _ => true
  | _ => false

/-- The derived relative path of a vinyl file: `path.relative(base, path)`,
as the vinyl collaborator computes it. -/
def fileRelative (f : VFile) : String := pathRelative f.base f.path

/-! ## Concrete fixtures used by witnesses and counterexamples -/

/-- A concrete merged configuration: the factory defaults with cwd /w. -/
def cfgDemo : Config :=
  { events := [RawKind.add, RawKind.change, RawKind.unlink],
    ignoreInitial := true,
    readDelay := 10,
    cwd := some "/w",
    base := none,
    verbose := false,
    name := none }

/-- A concrete session watching the single pattern a/** resolved to
/w/a/**. -/
def sessDemo : Session :=
  { originalGlobs := GlobsArg.str "a/**",
    opts := cfgDemo,
    procCwd := "/w",
    globs := ["/w/a/**"],
    closed := false }

/-- A concrete matcher: anything under /w/a matches the first pattern. -/
def extDemo : Ext :=
  { am := fun gs p => if (!gs.isEmpty) && strStarts "/w/a" p then some 0 else none,
    gp := fun _ => "/w/a" }

/-- A matcher that never matches anything. -/
def extNone : Ext :=
  { am := fun _ _ => none,
    gp := fun g => g }

/-- A matcher for the pattern-addition scenario: paths under /w/b match
index 1, paths under /w/a match index 0. -/
def extTwo : Ext :=
  { am := fun _ p =>
      if strStarts "/w/b" p then some 1
      else if strStarts "/w/a" p then some 0
      else none,
    gp := fun _ => "/w/b" }

/-- A concrete scheduled read for /w/a/x.js. -/
def pendDemo : Pending :=
  { event := RawKind.change, filepath := "/w/a/x.js", base := "/w/a", delay := 10 }

/-- A concrete vinyl file for /w/a/x.js. -/
def fileDemo : VFile := { path := "/w/a/x.js", base := "/w/a" }

/-- The session after close() has run. -/
def sessClosed : Session := { sessDemo with closed := true }

/-- A closed session that still has one read in flight. -/
def stClosed : MState := { sess := sessClosed, pending := [pendDemo] }

/-- The diagnostic produced for the unowned path /q/x.js. -/
def dDemo : Diag :=
  { originalGlobs := GlobsArg.str "a/**", filepath := "/q/x.js", event := RawKind.change }

/-- Trace: a change under the watched pattern, then close, then the read
settles. -/
def traceC4 : List Act :=
  [Act.raw RawKind.change "a/x.js", Act.close, Act.settle 0 (Except.ok "data")]

/-- Trace: a pattern added at runtime, then a raw event nothing owns. -/
def traceC5 : List Act :=
  [Act.addGlobs (GlobsArg.str "b/**"), Act.raw RawKind.change "/q/x.js"]

/-! ## Theorems -/

/-- C1: the owner walk of src/index.js lines 101-103 (with its
`const glob;` slip read as the mutable binding the loop needs) tries the
matcher at the resolved path and then at each ancestor directory in
order, and stops exactly at the first match or at the path whose
`dirname` is itself (the filesystem root); the result is `none` only
when no path of that chain matches. -/
theorem findOwner_walks_ancestors (am : List String → String → Option Nat)
    (globs : List String) (fuel : Nat) (p : String) :
    findOwner am globs fuel p
      = firstMatch (fun q => jsIndex globs (am globs q)) (dirChain fuel p) := by
  induction fuel generalizing p with
  | zero => rfl
  | succ n ih =>
    cases h : jsIndex globs (am globs p) with
    | some g => simp [findOwner, dirChain, firstMatch, h]
    | none =>
      by_cases hd : dirname p = p
      · simp [findOwner, dirChain, firstMatch, h, hd]
      · simp [findOwner, dirChain, firstMatch, h, hd, ih]

/-- C2: a rejected content read emits nothing — not even an error event —
because the promise chain on src/index.js line 130 has no rejection
handler; the error branch of `write` (lines 137-140), which would emit
on the stream's error channel, exists but is never reached by any
caller. -/
theorem readFailure_unhandled :
    completeRead sessDemo pendDemo (Except.error ()) = []
    ∧ write sessDemo RawKind.change (some ()) fileDemo = [Out.errorEvent] :=
  ⟨rfl, rfl⟩

/-- C3: resolving a negated glob throws TypeError (assignment to the
`const mod` binding of src/index.js line 52) instead of preserving the
negation marker; a plain glob is resolved to an absolute slash-normalized
form; the intended mutable-binding version preserves the marker as the
spec states. -/
theorem resolveGlob_negation_throws :
    resolveGlob "/w" "!src/a.js" = Except.error JsError.constAssignment
    ∧ resolveGlob "/w" "src/a.js" = Except.ok "/w/src/a.js"
    ∧ resolveGlobLet "/w" "!src/a.js" = "!/w/src/a.js" := by
  refine ⟨rfl, rfl, by decide⟩

/-- C4 counterexample: in the concrete trace "change event, close(),
pending read settles", a File Change Event is pushed downstream after
the stream signalled end — the read scheduled before close() still
emits. -/
theorem close_then_pending_read_pushes :
    (afterEnd (run extDemo { sess := sessDemo, pending := [] } traceC4).2).any isPushOut
      = true := by
  decide

/-- C4 amended: close() stops the underlying watcher and signals end,
but the engine performs no post-close guarding: settling a content read
that is still pending on a closed session pushes the completed file
downstream exactly as on an open one. -/
theorem close_does_not_guard_stream (ext : Ext) (st : MState) (i : Nat)
    (pr : Pending) (c : String)
    (_hclosed : st.sess.closed = true)
    (hp : st.pending[i]? = some pr) :
    Out.push { path := pr.filepath, base := pr.base, contents := some c,
               statPresent := true, event := some pr.event }
      ∈ (step ext st (Act.settle i (Except.ok c))).2 := by
  have h : (step ext st (Act.settle i (Except.ok c))).2
      = completeRead st.sess pr (Except.ok c) := by
    simp [step, hp]
  rw [h]
  simp only [completeRead, write]
  exact List.mem_append_right _ (List.mem_cons_self _ _)

/-- Witness for the amended C4 at a concrete closed session with one
pending read. -/
theorem close_does_not_guard_stream_witness :
    stClosed.sess.closed = true
    ∧ stClosed.pending[0]? = some pendDemo
    ∧ Out.push { path := pendDemo.filepath, base := pendDemo.base,
                 contents := some "data", statPresent := true,
                 event := some pendDemo.event }
        ∈ (step extDemo stClosed (Act.settle 0 (Except.ok "data"))).2 :=
  ⟨rfl, rfl, close_does_not_guard_stream extDemo stClosed 0 pendDemo "data" rfl rfl⟩

/-- C5 counterexample: after b/** is added at runtime (live set
/w/a/**, /w/b/**), the diagnostic for the unowned path /q/x.js shows
the original constructor argument a/** only — the runtime-added pattern
/w/b/** does not appear in it, so the diagnostic does not include the
full current pattern set. -/
theorem diagnostic_lacks_added_patterns :
    (run extNone { sess := sessDemo, pending := [] } traceC5).2
      = [Out.watcherAdd ["/w/b/**"], Out.diagnostic dDemo, Out.mirror RawKind.change]
    ∧ (run extNone { sess := sessDemo, pending := [] } traceC5).1.sess.globs
      = ["/w/a/**", "/w/b/**"]
    ∧ "/w/b/**" ∉ diagShownGlobs dDemo := by
  refine ⟨by decide, by decide, by decide⟩

/-- C5 amended: for a raw event of an enabled kind whose resolved path
no owner walk resolves, the engine emits exactly one diagnostic carrying
the triggering resolved path, the event kind and the globs argument as
originally supplied at construction (not the live pattern set), drops
the event (no push, no callback, no scheduled read) and leaves the
session state unchanged, so watching continues. -/
theorem unowned_event_diagnostic (ext : Ext) (st : MState) (ev : RawKind)
    (rawp : String)
    (hen : ev ∈ st.sess.opts.events)
    (hun : lookupOwner ext.am st.sess.globs
        (resolveFilepath (effCwd st.sess) rawp) = none) :
    step ext st (Act.raw ev rawp)
      = (st,
         [Out.diagnostic
            { originalGlobs := st.sess.originalGlobs,
              filepath := resolveFilepath (effCwd st.sess) rawp,
              event := ev },
          Out.mirror ev]) := by
  simp only [step, if_pos hen, processEvent, hun]
  simp

/-- Witness for the amended C5: the concrete unowned event /q/x.js on
the demo session. -/
theorem unowned_event_diagnostic_witness :
    RawKind.change ∈ sessDemo.opts.events
    ∧ lookupOwner extNone.am sessDemo.globs
        (resolveFilepath (effCwd sessDemo) "/q/x.js") = none
    ∧ step extNone { sess := sessDemo, pending := [] } (Act.raw RawKind.change "/q/x.js")
      = ({ sess := sessDemo, pending := [] },
         [Out.diagnostic
            { originalGlobs := sessDemo.originalGlobs,
              filepath := resolveFilepath (effCwd sessDemo) "/q/x.js",
              event := RawKind.change },
          Out.mirror RawKind.change]) :=
  ⟨by decide, by decide,
    unowned_event_diagnostic extNone { sess := sessDemo, pending := [] }
      RawKind.change "/q/x.js" (by decide) (by decide)⟩

/-- C6: an owned unlink or unlinkDir event schedules no content read
(the pending list stays empty) and is written immediately: the emitted
file carries only path and base metadata (no contents, no stats) and the
pushed copy is tagged with the event kind. -/
theorem delete_event_immediate_no_read (ext : Ext) (s : Session) (ev : RawKind)
    (rawp glob : String)
    (hev : isDeleteEvent ev = true)
    (hown : lookupOwner ext.am s.globs (resolveFilepath (effCwd s) rawp) = some glob) :
    processEvent ext s ev rawp
      = (write s ev none
          { path := resolveFilepath (effCwd s) rawp,
            base := ownedBase ext s glob,
            contents := none, statPresent := false, event := none }, [])
    ∧ Out.push { path := resolveFilepath (effCwd s) rawp,
                 base := ownedBase ext s glob,
                 contents := none, statPresent := false, event := some ev }
        ∈ (processEvent ext s ev rawp).1 := by
  have h1 : processEvent ext s ev rawp
      = (write s ev none
          { path := resolveFilepath (effCwd s) rawp,
            base := ownedBase ext s glob,
            contents := none, statPresent := false, event := none }, []) := by
    simp [processEvent, hown, hev]
  refine ⟨h1, ?_⟩
  rw [h1]
  simp only [write]
  exact List.mem_append_right _ (List.mem_cons_self _ _)

/-- Witness for C6: a concrete unlink of /w/a/x.js owned by /w/a/**. -/
theorem delete_event_immediate_no_read_witness :
    isDeleteEvent RawKind.unlink = true
    ∧ lookupOwner extDemo.am sessDemo.globs
        (resolveFilepath (effCwd sessDemo) "a/x.js") = some "/w/a/**"
    ∧ (processEvent extDemo sessDemo RawKind.unlink "a/x.js"
        = (write sessDemo RawKind.unlink none
            { path := resolveFilepath (effCwd sessDemo) "a/x.js",
              base := ownedBase extDemo sessDemo "/w/a/**",
              contents := none, statPresent := false, event := none }, [])
      ∧ Out.push { path := resolveFilepath (effCwd sessDemo) "a/x.js",
                   base := ownedBase extDemo sessDemo "/w/a/**",
                   contents := none, statPresent := false,
                   event := some RawKind.unlink }
          ∈ (processEvent extDemo sessDemo RawKind.unlink "a/x.js").1) :=
  ⟨rfl, by decide,
    delete_event_immediate_no_read extDemo sessDemo RawKind.unlink "a/x.js"
      "/w/a/**" rfl (by decide)⟩

/-- C7 counterexample: the empty pattern list is accepted (no error at
all), and the number 0 — a wrong-typed argument — fails with the
missing-argument error rather than the invalid-argument one. -/
theorem normalizeGlobs_empty_and_zero :
    normalizeGlobs (GlobsArg.arr []) = Except.ok []
    ∧ normalizeGlobs (GlobsArg.num 0) = Except.error PluginErr.missingArgument :=
  ⟨rfl, rfl⟩

/-- C7 amended: normalization fails synchronously with the
missing-argument error exactly on falsy arguments (absent, the empty
string, the number 0) and with the distinct invalid-argument error,
naming the JavaScript type, on truthy arguments that are neither string
nor array (such as any nonzero number); an empty list is accepted and
yields an empty pattern list. -/
theorem normalizeGlobs_error_kinds (n : Int) (hn : n ≠ 0) :
    normalizeGlobs GlobsArg.undef = Except.error PluginErr.missingArgument
    ∧ normalizeGlobs (GlobsArg.str "") = Except.error PluginErr.missingArgument
    ∧ normalizeGlobs (GlobsArg.num n)
        = Except.error (PluginErr.invalidArgument "number")
    ∧ PluginErr.missingArgument ≠ PluginErr.invalidArgument "number" := by
  have hb : (n == 0) = false := beq_eq_false_iff_ne.mpr hn
  refine ⟨rfl, rfl, ?_, by decide⟩
  simp [normalizeGlobs, falsy, hb, jsTypeName]

/-- Witness for the amended C7 at the concrete nonzero number 123. -/
theorem normalizeGlobs_error_kinds_witness :
    (123 : Int) ≠ 0
    ∧ (normalizeGlobs GlobsArg.undef = Except.error PluginErr.missingArgument
      ∧ normalizeGlobs (GlobsArg.str "") = Except.error PluginErr.missingArgument
      ∧ normalizeGlobs (GlobsArg.num 123)
          = Except.error (PluginErr.invalidArgument "number")
      ∧ PluginErr.missingArgument ≠ PluginErr.invalidArgument "number") :=
  ⟨by decide, normalizeGlobs_error_kinds 123 (by decide)⟩

/-- Helper: when the matcher already hits at the path itself, the walk
returns that glob on its first iteration. -/
theorem findOwner_match_here (am : List String → String → Option Nat)
    (globs : List String) (fuel : Nat) (p g : String)
    (h : jsIndex globs (am globs p) = some g) :
    findOwner am globs (fuel + 1) p = some g := by
  simp [findOwner, h]

/-- Helper: owner lookup at a path the matcher resolves directly. -/
theorem lookupOwner_match_here (am : List String → String → Option Nat)
    (globs : List String) (p g : String)
    (h : jsIndex globs (am globs p) = some g) :
    lookupOwner am globs p = some g :=
  findOwner_match_here am globs ((splitPath p).length + 1) p g h

/-- C8: a successful outputStream.add(newGlobs) resolves the new
patterns, instructs the underlying watcher to watch exactly the resolved
paths, and appends them to the live pattern list of the same session;
a subsequent path that the matcher resolves to an appended index is
resolved by owner lookup to the corresponding newly added pattern. -/
theorem add_extends_live_patterns (ext : Ext) (st : MState) (g : GlobsArg)
    (rs : List String) (p : String) (j : Nat) (glob : String)
    (hres : resolveAll (effCwd st.sess) g = Except.ok rs)
    (hmatch : ext.am (st.sess.globs ++ rs) p = some (st.sess.globs.length + j))
    (hj : rs[j]? = some glob)
    (hne : glob ≠ "") :
    step ext st (Act.addGlobs g)
      = ({ st with sess := { st.sess with globs := st.sess.globs ++ rs } },
         [Out.watcherAdd rs])
    ∧ lookupOwner ext.am (st.sess.globs ++ rs) p = some glob := by
  constructor
  · simp [step, hres]
  · apply lookupOwner_match_here
    rw [hmatch]
    have hidx : (st.sess.globs ++ rs)[st.sess.globs.length + j]? = some glob := by
      rw [List.getElem?_append_right (Nat.le_add_right _ _),
        Nat.add_sub_cancel_left]
      exact hj
    simp [jsIndex, hidx, hne]

/-- Witness for C8: adding b/** to the demo session and resolving the
subsequent path /w/b/y.js to it. -/
theorem add_extends_live_patterns_witness :
    resolveAll (effCwd sessDemo) (GlobsArg.str "b/**") = Except.ok ["/w/b/**"]
    ∧ extTwo.am (sessDemo.globs ++ ["/w/b/**"]) "/w/b/y.js"
      = some (sessDemo.globs.length + 0)
    ∧ ["/w/b/**"][0]? = some "/w/b/**"
    ∧ ("/w/b/**" : String) ≠ ""
    ∧ (step extTwo { sess := sessDemo, pending := [] } (Act.addGlobs (GlobsArg.str "b/**"))
        = ({ sess := { sessDemo with globs := sessDemo.globs ++ ["/w/b/**"] },
             pending := [] },
           [Out.watcherAdd ["/w/b/**"]])
      ∧ lookupOwner extTwo.am (sessDemo.globs ++ ["/w/b/**"]) "/w/b/y.js"
        = some "/w/b/**") :=
  ⟨rfl, by decide, rfl, by decide,
    add_extends_live_patterns extTwo { sess := sessDemo, pending := [] }
      (GlobsArg.str "b/**") ["/w/b/**"] "/w/b/y.js" 0 "/w/b/**"
      rfl (by decide) rfl (by decide)⟩

/-- Helper: dropping the common leading run of a list against itself
extended by a tail leaves exactly the tail. -/
theorem dropCommon_append (xs t : List String) :
    dropCommon xs (xs ++ t) = ([], t) := by
  induction xs with
  | nil => cases t <;> simp [dropCommon]
  | cons x xs ih => simp [dropCommon, ih]

/-- Helper: when the base's segments are a leading run of the path's
segments, the relative path is the remaining segments joined back. -/
theorem pathRelative_extends (b p : String) (t : List String)
    (h : splitPath p = splitPath b ++ t) :
    pathRelative b p = joinSegs t := by
  simp [pathRelative, h, dropCommon_append]

/-- C9: for an owned event, the base attached to the emitted file (both
on the immediate deletion path and on the scheduled-read path) is the
caller-forced base option when that option is truthy and otherwise the
normalized glob-parent of the owning pattern; and the file's derived
relative path is its absolute path minus that base (the segments left
after removing the base's leading segments). -/
theorem event_base_and_relative (ext : Ext) (s : Session) (ev : RawKind)
    (rawp glob : String) (t : List String)
    (hown : lookupOwner ext.am s.globs (resolveFilepath (effCwd s) rawp) = some glob)
    (ht : splitPath (resolveFilepath (effCwd s) rawp)
      = splitPath (ownedBase ext s glob) ++ t) :
    (baseForced s = true → ownedBase ext s glob = (s.opts.base).getD "")
    ∧ (baseForced s = false → ownedBase ext s glob = pathNormalize (ext.gp glob))
    ∧ (isDeleteEvent ev = true →
        (processEvent ext s ev rawp).1
          = write s ev none
              { path := resolveFilepath (effCwd s) rawp,
                base := ownedBase ext s glob,
                contents := none, statPresent := false, event := none })
    ∧ (isDeleteEvent ev = false →
        (processEvent ext s ev rawp).2
          = [{ event := ev,
               filepath := resolveFilepath (effCwd s) rawp,
               base := ownedBase ext s glob,
               delay := s.opts.readDelay }])
    ∧ fileRelative { path := resolveFilepath (effCwd s) rawp,
                     base := ownedBase ext s glob,
                     contents := none, statPresent := false, event := none }
      = joinSegs t := by
  refine ⟨?_, ?_, ?_, ?_, ?_⟩
  · intro hb; simp [ownedBase, hb]
  · intro hb; simp [ownedBase, hb]
  · intro hd; simp [processEvent, hown, hd]
  · intro hd; simp [processEvent, hown, hd]
  · exact pathRelative_extends _ _ t ht

/-- Witness for C9: the unlink of /w/a/x.js owned by /w/a/** with
derived base /w/a and relative path x.js. -/
theorem event_base_and_relative_witness :
    lookupOwner extDemo.am sessDemo.globs
      (resolveFilepath (effCwd sessDemo) "a/x.js") = some "/w/a/**"
    ∧ splitPath (resolveFilepath (effCwd sessDemo) "a/x.js")
      = splitPath (ownedBase extDemo sessDemo "/w/a/**") ++ ["x.js"]
    ∧ ((baseForced sessDemo = true →
          ownedBase extDemo sessDemo "/w/a/**" = (sessDemo.opts.base).getD "")
      ∧ (baseForced sessDemo = false →
          ownedBase extDemo sessDemo "/w/a/**"
            = pathNormalize (extDemo.gp "/w/a/**"))
      ∧ (isDeleteEvent RawKind.unlink = true →
          (processEvent extDemo sessDemo RawKind.unlink "a/x.js").1
            = write sessDemo RawKind.unlink none
                { path := resolveFilepath (effCwd sessDemo) "a/x.js",
                  base := ownedBase extDemo sessDemo "/w/a/**",
                  contents := none, statPresent := false, event := none })
      ∧ (isDeleteEvent RawKind.unlink = false →
          (processEvent extDemo sessDemo RawKind.unlink "a/x.js").2
            = [{ event := RawKind.unlink,
                 filepath := resolveFilepath (effCwd sessDemo) "a/x.js",
                 base := ownedBase extDemo sessDemo "/w/a/**",
                 delay := sessDemo.opts.readDelay }])
      ∧ fileRelative { path := resolveFilepath (effCwd sessDemo) "a/x.js",
                       base := ownedBase extDemo sessDemo "/w/a/**",
                       contents := none, statPresent := false, event := none }
        = joinSegs ["x.js"]) :=
  ⟨by decide, by decide,
    event_base_and_relative extDemo sessDemo RawKind.unlink "a/x.js" "/w/a/**"
      ["x.js"] (by decide) (by decide)⟩

/-- C10: a function supplied in the options position becomes the
per-file callback (discarding any third argument) and the configuration
is exactly the factory defaults — events add/change/unlink,
ignoreInitial true, readDelay 10, everything else absent; and whenever
no callback is supplied at all, the resolved callback is the no-op, so
emitting events never lacks a callback. -/
theorem function_opts_becomes_callback {κ : Type} (f : κ) (cbArg : Option κ)
    (o : ConfigInput) :
    resolveWatchArgs (OptsArg.fn f) cbArg
      = ({ events := [RawKind.add, RawKind.change, RawKind.unlink],
           ignoreInitial := true, readDelay := 10,
           cwd := none, base := none, verbose := false, name := none },
         Callback.user f)
    ∧ (resolveWatchArgs (OptsArg.obj o) (none : Option κ)).2 = Callback.noop
    ∧ (resolveWatchArgs (OptsArg.undef : OptsArg κ) none).2 = Callback.noop
    ∧ resolveWatchArgs (OptsArg.obj o) (some f) = (mergeOptions o, Callback.user f) :=
  ⟨rfl, rfl, rfl, rfl⟩

end GulpWatch
